import Mathlib

/-!
Shallow embedding of the invocation and session-correlation layer of
`claude-code-mcp` (`src/server.ts`) and proofs about it.

The embedding follows the TypeScript source:
* JavaScript values reaching the handlers are modelled by `Json`
  (`undefined` is modelled by `Option`).
* External effects (filesystem existence checks, `path.resolve`,
  `os.homedir`, `JSON.parse`) are passed in as function parameters, so
  every definition is a pure function of the code's actual inputs.
* The event-driven child process of `spawnAsync` is modelled by a list of
  the events Node delivers (`data` on stdout/stderr, `error`, `close`),
  folded through the handler logic of the source.
-/

namespace ClaudeMCP

/-- JavaScript/JSON values as seen by `JSON.parse` and by the tool-argument
objects the MCP SDK delivers (`Record<string, unknown>`). -/
inductive Json where
  | str : String → Json
  | num : Int → Json
  | bool : Bool → Json
  | null : Json
  | arr : List Json → Json
  | obj : List (String × Json) → Json

/-- Property lookup on a parsed JSON object field list. -/
def lookupField : List (String × Json) → String → Option Json
  | [], _ => none
  | (k, v) :: rest, key => if k = key then some v else lookupField rest key

/-- JavaScript property access `parsed.key`: defined (non-`undefined`) only on
objects that carry the key. -/
def Json.getField : Json → String → Option Json
  | .obj fields, key => lookupField fields key
  | _, _ => none

/-- Lookup of a named tool argument in `toolArguments` (which may be
`undefined`, i.e. `none`). -/
def getArg (toolArguments : Option (List (String × Json))) (key : String) : Option Json :=
  match toolArguments with
  | none => none
  | some fields => lookupField fields key

/-- The protocol error codes used by `server.ts` (`ErrorCode` of the MCP SDK). -/
inductive ErrorCode where
  | invalidParams
  | internalError
  | methodNotFound
deriving Repr, DecidableEq

/-- Embedding of `McpError`: an error code plus a message. -/
structure McpError where
  code : ErrorCode
  message : String
deriving Repr, DecidableEq

/-- Return type of `parseClaudeOutput`. -/
structure NormalizedResult where
  resultText : String
  sessionId : Option String
  isError : Option Bool
deriving Repr, DecidableEq

/-- Embedding of `parseClaudeOutput` (src/server.ts:104-129). `jsonParse` stands for
`JSON.parse`, with `none` for a parse exception. The whole body sits in a
`try`; the `catch` returns the raw input, as does the branch where
`parsed.result` is not a string (property access on a non-object yields
`undefined` — or throws for `null`, landing in the same `catch` fallback). -/
def parseClaudeOutput (jsonParse : String → Option Json) (stdout : String) :
    NormalizedResult :=
  match jsonParse stdout with
  | none => { resultText := stdout, sessionId := none, isError := none }
  | some parsed =>
    match parsed.getField "result" with
    | some (.str r) =>
      { resultText := r
        sessionId :=
          match parsed.getField "session_id" with
          | some (.str s) => some s
          | _ => none
        isError :=
          match parsed.getField "is_error" with
          | some (.bool b) => some b
          | _ => none }
    | _ => { resultText := stdout, sessionId := none, isError := none }

/-- The `structuredContent` extension carried by an `ExtendedServerResult`. -/
structure StructuredContent where
  threadId : String
  content : String
deriving Repr, DecidableEq

/-- The MCP response shape produced by `buildResponse`: one text content
block, an `isError` flag, and the optional `structuredContent` extension. -/
structure ExtendedServerResult where
  contentText : String
  isError : Bool
  structuredContent : Option StructuredContent
deriving Repr, DecidableEq

/-- Embedding of `buildResponse` (src/server.ts:138-147). `isError ?? false`; the
extension is added under `if (sessionId)`, i.e. only for a present,
non-empty session string (the empty string is falsy in JavaScript). -/
def buildResponse (resultText : String) (sessionId : Option String)
    (isError : Option Bool) : ExtendedServerResult :=
  { contentText := resultText
    isError := isError.getD false
    structuredContent :=
      match sessionId with
      | some s => if s.isEmpty then none else some ⟨s, resultText⟩
      | none => none }

/-- JavaScript `s.trim()`: strip leading and trailing whitespace. Defined
over the character list so it evaluates inside the kernel. -/
def strTrim (s : String) : String :=
  ⟨List.reverse (List.dropWhile Char.isWhitespace
    (List.reverse (List.dropWhile Char.isWhitespace s.data)))⟩

/-- Embedding of `resolveWorkFolder` (src/server.ts:153-171). `fsExists` stands for
`existsSync`, `pathResolve` for `path.resolve`, `homedir` for `os.homedir()`.
A non-string (or absent) `workFolder` falls through both `typeof` guards to
the home-directory default. A string whose `trim` is empty is rejected
first; any string surviving that check is non-empty, hence truthy. -/
def resolveWorkFolder (fsExists : String → Bool) (pathResolve : String → String)
    (homedir : String) (workFolder : Option Json) : Except McpError String :=
  match workFolder with
  | some (.str s) =>
    if strTrim s = "" then
      .error ⟨.invalidParams, "workFolder cannot be an empty string"⟩
    else
      let resolvedCwd := pathResolve s
      if fsExists resolvedCwd then
        .ok resolvedCwd
      else
        .error ⟨.invalidParams, "Specified workFolder does not exist: " ++ resolvedCwd⟩
  | _ => .ok homedir

/-- Substring test on character lists: does the list start with `pat`? -/
def charsStartWith : List Char → List Char → Bool
  | _, [] => true
  | [], _ :: _ => false
  | c :: cs, p :: ps => (c = p) && charsStartWith cs ps

/-- Substring test on character lists: does `pat` occur anywhere? -/
def charsContain : List Char → List Char → Bool
  | [], pat => pat.isEmpty
  | c :: cs, pat => charsStartWith (c :: cs) pat || charsContain cs pat

/-- JavaScript `s.includes(pat)`. -/
def strContains (s pat : String) : Bool :=
  charsContain s.data pat.data

/-- JavaScript `s.startsWith(pat)`, over character lists so it evaluates
inside the kernel. -/
def jsStartsWith (s pat : String) : Bool :=
  charsStartWith s.data pat.data

/-- Embedding of `findClaudeCli` (src/server.ts:61-98). `customCliName` is the
`CLAUDE_CLI_NAME` environment variable (`none` when unset); `isAbsolute`
stands for `path.isAbsolute`, `fsExists` for `existsSync`, and `homedir`
for `os.homedir()`; `join(homedir(), '.claude', 'local', 'claude')` is the
concatenation below. `if (customCliName)` is a truthiness test, so the
empty string behaves like an unset variable. -/
def findClaudeCli (customCliName : Option String) (isAbsolute : String → Bool)
    (fsExists : String → Bool) (homedir : String) : Except String String :=
  let customTruthy : Bool :=
    match customCliName with
    | some s => !s.isEmpty
    | none => false
  let custom := customCliName.getD ""
  if customTruthy && isAbsolute custom then
    .ok custom
  else if customTruthy &&
      (jsStartsWith custom "./" || jsStartsWith custom "../" || strContains custom "/") then
    .error ("Invalid CLAUDE_CLI_NAME: Relative paths are not allowed. Use either a simple name (e.g., 'claude') or an absolute path (e.g., '/tmp/claude-test')")
  else
    let cliName := if customTruthy then custom else "claude"
    let userPath := homedir ++ "/.claude/local/claude"
    if fsExists userPath then .ok userPath else .ok cliName

/-- Events Node delivers to the listeners `spawnAsync` registers:
`data` chunks on stdout and stderr, the process-level `error` event (with
the optional `path` and `syscall` properties of an `ErrnoException`), and
the `close` event (whose exit code is `null` — here `none` — when the
child was killed by a signal). -/
inductive SpawnEvent where
  | stdoutData : String → SpawnEvent
  | stderrData : String → SpawnEvent
  | errorEvent : String → Option String → Option String → SpawnEvent
  | closeEvent : Option Int → SpawnEvent

/-- The value `spawnAsync` resolves with. -/
structure SpawnOk where
  stdout : String
  stderr : String
deriving Repr, DecidableEq

/-- State of one `spawnAsync` invocation: the accumulated streams, the
`settled` guard, and the settlement (resolution or rejection message)
once one happened. -/
structure SpawnState where
  stdout : String
  stderr : String
  settled : Bool
  settlement : Option (Except String SpawnOk)
deriving Repr

/-- JavaScript template rendering of a nullable exit code: `null` prints
as the string "null". -/
def jsCodeStr : Option Int → String
  | some c => toString c
  | none => "null"

/-- One event-handler step of `spawnAsync` (src/server.ts:188-220).
The `data` handlers append unconditionally; the `error` and `close`
handlers return early when `settled` is already true, otherwise set it and
settle with exactly the messages the source builds. -/
def spawnStep (st : SpawnState) : SpawnEvent → SpawnState
  | .stdoutData chunk => { st with stdout := st.stdout ++ chunk }
  | .stderrData chunk => { st with stderr := st.stderr ++ chunk }
  | .errorEvent msg path syscall =>
    if st.settled then st
    else
      let m1 := "Spawn error: " ++ msg
      let m2 := match path with
        | some p => m1 ++ " | Path: " ++ p
        | none => m1
      let m3 := match syscall with
        | some sc => m2 ++ " | Syscall: " ++ sc
        | none => m2
      { st with settled := true
                settlement := some (.error (m3 ++ "\nStderr: " ++ strTrim st.stderr)) }
  | .closeEvent code =>
    if st.settled then st
    else if code = some 0 then
      { st with settled := true
                settlement := some (.ok ⟨st.stdout, st.stderr⟩) }
    else
      { st with settled := true
                settlement := some (.error
                  ("Command failed with exit code " ++ jsCodeStr code ++
                   "\nStderr: " ++ strTrim st.stderr ++
                   "\nStdout: " ++ strTrim st.stdout)) }

/-- Initial state of a `spawnAsync` invocation. -/
def initialSpawnState : SpawnState :=
  { stdout := "", stderr := "", settled := false, settlement := none }

/-- Run one `spawnAsync` invocation over the events the child delivers. -/
def runSpawnEvents (events : List SpawnEvent) : SpawnState :=
  events.foldl spawnStep initialSpawnState

/-- The settlement of the promise returned by `spawnAsync`
(src/server.ts:174-222): `none` if no `error`/`close` event arrived,
otherwise the single resolution or rejection. -/
def spawnAsync (events : List SpawnEvent) : Option (Except String SpawnOk) :=
  (runSpawnEvents events).settlement

/-- The shape of a caught JavaScript error as the handler's `catch` block
inspects it: `message`, and the optional `stderr`, `stdout`, `signal` and
`code` properties. A plain `new Error(msg)` — which is all `spawnAsync`
ever rejects with — has only `message`. -/
structure JsError where
  message : String
  stderrProp : Option String
  stdoutProp : Option String
  signal : Option String
  code : Option String
deriving Repr, DecidableEq

/-- What `reject(new Error(errorMessage))` in `spawnAsync` produces: a plain
Error: no `stderr`, `stdout`, `signal` or `code` properties. -/
def spawnRejectionError (msg : String) : JsError :=
  { message := msg, stderrProp := none, stdoutProp := none
    signal := none, code := none }

/-- The fixed 30-minute timeout (src/server.ts:344). -/
def executionTimeoutMs : Nat := 1800000

/-- The `catch` block shared by both tool handlers
(src/server.ts:394-407 and 443-457): enrich the message with the error's
`stderr`/`stdout` properties when truthy, append the ENOENT hint when the
message mentions ENOENT, then report a timeout-specific internal error when
`signal === 'SIGTERM'`, the message contains 'ETIMEDOUT', or
`code === 'ETIMEDOUT'`; otherwise a generic execution-failure internal
error. -/
def handleExecutionError (error : JsError) : McpError :=
  let m0 := if error.message.isEmpty then "Unknown error" else error.message
  let m1 := match error.stderrProp with
    | some s => if s.isEmpty then m0 else m0 ++ "\nStderr: " ++ s
    | none => m0
  let m2 := match error.stdoutProp with
    | some s => if s.isEmpty then m1 else m1 ++ "\nStdout: " ++ s
    | none => m1
  let m3 := if strContains error.message "ENOENT" then
      m2 ++ "\nClaude CLI not found. Ensure it is installed and in your PATH, or set CLAUDE_CLI_NAME."
    else m2
  if error.signal = some "SIGTERM" || strContains error.message "ETIMEDOUT" ||
      error.code = some "ETIMEDOUT" then
    ⟨.internalError,
     "Claude CLI command timed out after " ++ toString (executionTimeoutMs / 1000) ++
     "s. Details: " ++ m3⟩
  else
    ⟨.internalError, "Claude CLI execution failed: " ++ m3⟩

/-- The request the handler hands to the process layer: the resolved CLI
command, the literal argument vector, the working directory, and the
timeout. -/
structure SpawnRequest where
  command : String
  args : List String
  cwd : String
  timeoutMs : Nat
deriving Repr, DecidableEq

/-- The `claude_code` branch of the CallTool handler up to the point of
spawning (src/server.ts:411-434): validate `prompt`
(`'prompt' in toolArguments && typeof toolArguments.prompt === 'string'` —
any string, including the empty one), resolve the working directory, and
build the argument vector. An `.error` return is a thrown `McpError`, so no
child process is spawned on that path. -/
def handleClaudeCode (fsExists : String → Bool) (pathResolve : String → String)
    (homedir claudeCliPath : String)
    (toolArguments : Option (List (String × Json))) : Except McpError SpawnRequest :=
  match getArg toolArguments "prompt" with
  | some (.str prompt) =>
    match resolveWorkFolder fsExists pathResolve homedir (getArg toolArguments "workFolder") with
    | .error e => .error e
    | .ok effectiveCwd =>
      .ok { command := claudeCliPath
            args := ["--dangerously-skip-permissions", "-p", "--output-format", "json", prompt]
            cwd := effectiveCwd
            timeoutMs := executionTimeoutMs }
  | _ => .error ⟨.invalidParams,
      "Missing or invalid required parameter: prompt (must be an object with a string \"prompt\" property) for claude_code tool"⟩

/-- The `claude_code_reply` branch of the CallTool handler up to the point
of spawning (src/server.ts:364-386). Its guards are truthiness tests
(`if (!threadId || typeof threadId !== 'string')`, likewise for `prompt`),
so a missing value, a non-string value, and the empty string are all
rejected. -/
def handleClaudeCodeReply (fsExists : String → Bool) (pathResolve : String → String)
    (homedir claudeCliPath : String)
    (toolArguments : Option (List (String × Json))) : Except McpError SpawnRequest :=
  match getArg toolArguments "threadId" with
  | some (.str threadId) =>
    if threadId.isEmpty then
      .error ⟨.invalidParams, "Missing or invalid required parameter: threadId"⟩
    else
      match getArg toolArguments "prompt" with
      | some (.str prompt) =>
        if prompt.isEmpty then
          .error ⟨.invalidParams, "Missing or invalid required parameter: prompt"⟩
        else
          match resolveWorkFolder fsExists pathResolve homedir (getArg toolArguments "workFolder") with
          | .error e => .error e
          | .ok effectiveCwd =>
            .ok { command := claudeCliPath
                  args := ["--dangerously-skip-permissions", "-p", "--output-format", "json",
                           "--resume", threadId, prompt]
                  cwd := effectiveCwd
                  timeoutMs := executionTimeoutMs }
      | _ => .error ⟨.invalidParams, "Missing or invalid required parameter: prompt"⟩
  | _ => .error ⟨.invalidParams, "Missing or invalid required parameter: threadId"⟩

/-- The response both success paths return:
`buildResponse` applied to the fields of `parseClaudeOutput stdout`
(src/server.ts:391-392 and 440-441). -/
def successResponse (jsonParse : String → Option Json) (stdout : String) :
    ExtendedServerResult :=
  buildResponse (parseClaudeOutput jsonParse stdout).resultText
    (parseClaudeOutput jsonParse stdout).sessionId
    (parseClaudeOutput jsonParse stdout).isError

/-- A thrown `McpError` with the invalid-params code. -/
def isInvalidParams : Except McpError SpawnRequest → Bool
  | .error ⟨.invalidParams, _⟩ => true
  | _ => false

/-! Helper lemmas about the substring test. -/

theorem charsStartWith_self (l : List Char) : charsStartWith l l = true := by
  induction l with
  | nil => rfl
  | cons c cs ih => simp [charsStartWith, ih]

theorem charsContain_append_self (a b : List Char) :
    charsContain (a ++ b) b = true := by
  induction a with
  | nil =>
    cases b with
    | nil => rfl
    | cons c cs => simp [charsContain, charsStartWith_self]
  | cons c cs ih => simp [charsContain, ih]

theorem strContains_append_self (a b : String) :
    strContains (a ++ b) b = true := by
  simp [strContains, String.data_append, charsContain_append_self]

/-- C1: for every valid invocation the argument vector handed to the
process layer equals the fixed reference: for a fresh conversation the
safety-acknowledgment flag, the non-interactive flag, the
structured-output-format flag pair, then the literal prompt as final
element; for a resumed conversation the same flags plus the resume flag
carrying the session identifier, then the literal prompt as final element,
with no escaping or re-encoding of the prompt. -/
theorem claude_args_match_reference
    (fsExists : String → Bool) (pathResolve : String → String)
    (homedir cli p t cwd : String)
    (toolArgs : Option (List (String × Json))) :
    (getArg toolArgs "prompt" = some (.str p) →
      resolveWorkFolder fsExists pathResolve homedir (getArg toolArgs "workFolder") = .ok cwd →
      handleClaudeCode fsExists pathResolve homedir cli toolArgs =
        .ok ⟨cli, ["--dangerously-skip-permissions", "-p", "--output-format", "json", p],
             cwd, executionTimeoutMs⟩) ∧
    (getArg toolArgs "threadId" = some (.str t) → t ≠ "" →
      getArg toolArgs "prompt" = some (.str p) → p ≠ "" →
      resolveWorkFolder fsExists pathResolve homedir (getArg toolArgs "workFolder") = .ok cwd →
      handleClaudeCodeReply fsExists pathResolve homedir cli toolArgs =
        .ok ⟨cli, ["--dangerously-skip-permissions", "-p", "--output-format", "json",
                   "--resume", t, p],
             cwd, executionTimeoutMs⟩) := by
  constructor
  · intro hp hw
    simp [handleClaudeCode, hp, hw]
  · intro ht htne hp hpne hw
    simp [handleClaudeCodeReply, ht, hp, hw, String.isEmpty_iff, htne, hpne]

/-- Witness for C1 at a concrete invocation. -/
theorem claude_args_match_reference_witness :
    handleClaudeCode (fun _ => true) (fun s => s) "/home/u" "claude"
        (some [("prompt", Json.str "hi there")]) =
      .ok ⟨"claude",
           ["--dangerously-skip-permissions", "-p", "--output-format", "json", "hi there"],
           "/home/u", executionTimeoutMs⟩ ∧
    handleClaudeCodeReply (fun _ => true) (fun s => s) "/home/u" "claude"
        (some [("threadId", Json.str "abc123"), ("prompt", Json.str "go on")]) =
      .ok ⟨"claude",
           ["--dangerously-skip-permissions", "-p", "--output-format", "json",
            "--resume", "abc123", "go on"],
           "/home/u", executionTimeoutMs⟩ := by
  constructor
  · exact (claude_args_match_reference (fun _ => true) (fun s => s) "/home/u" "claude"
      "hi there" "t" "/home/u" (some [("prompt", Json.str "hi there")])).1 rfl rfl
  · exact (claude_args_match_reference (fun _ => true) (fun s => s) "/home/u" "claude"
      "go on" "abc123" "/home/u"
      (some [("threadId", Json.str "abc123"), ("prompt", Json.str "go on")])).2
      rfl (by decide) rfl (by decide) rfl

/-- C2: the output interpreter is a total function over every stdout
string. When parsing succeeds and the `result` field is a string, it
returns that `result` as resultText, the `session_id` field when it is a
string, and the `is_error` field when it is a boolean; when parsing fails,
or `result` is missing or not a string, it returns the whole raw input as
resultText with no sessionId and no isError. Totality (never throwing) is
the totality of `parseClaudeOutput` itself. -/
theorem parseClaudeOutput_total_spec (jsonParse : String → Option Json) (stdout : String) :
    (jsonParse stdout = none →
      parseClaudeOutput jsonParse stdout = ⟨stdout, none, none⟩) ∧
    (∀ j, jsonParse stdout = some j → (∀ r, j.getField "result" ≠ some (.str r)) →
      parseClaudeOutput jsonParse stdout = ⟨stdout, none, none⟩) ∧
    (∀ j r, jsonParse stdout = some j → j.getField "result" = some (.str r) →
      parseClaudeOutput jsonParse stdout =
        ⟨r,
         match j.getField "session_id" with
         | some (.str s) => some s
         | _ => none,
         match j.getField "is_error" with
         | some (.bool b) => some b
         | _ => none⟩) := by
  refine ⟨fun h => by simp [parseClaudeOutput, h], fun j hj hnr => ?_, fun j r hj hr => ?_⟩
  · simp only [parseClaudeOutput, hj]
  · simp only [parseClaudeOutput, hj, hr]

/-- Witness for C2 at a concrete parse outcome and a concrete parse
failure. -/
theorem parseClaudeOutput_total_spec_witness :
    parseClaudeOutput
        (fun _ => some (.obj [("result", Json.str "ok"), ("session_id", Json.str "abc123")]))
        "raw" =
      ⟨"ok", some "abc123", none⟩ ∧
    parseClaudeOutput (fun _ => none) "garbled" = ⟨"garbled", none, none⟩ := by
  constructor
  · exact (parseClaudeOutput_total_spec
      (fun _ => some (.obj [("result", Json.str "ok"), ("session_id", Json.str "abc123")]))
      "raw").2.2 _ "ok" rfl rfl
  · exact (parseClaudeOutput_total_spec (fun _ => none) "garbled").1 rfl

/-- C3: an empty (or all-whitespace) `workFolder` string makes the request
handler fail with an invalid-params error before any child process is
spawned (an `.error` return means the `McpError` was thrown before
`spawnAsync` was reached), for both operations; a `workFolder` resolving
to a non-existent path makes an otherwise-valid request fail with an
invalid-params error whose message contains the resolved absolute path. -/
theorem workFolder_invalid_rejected
    (fsExists : String → Bool) (pathResolve : String → String)
    (homedir cli s : String) (toolArgs : Option (List (String × Json)))
    (hwf : getArg toolArgs "workFolder" = some (.str s)) :
    (strTrim s = "" →
      isInvalidParams (handleClaudeCode fsExists pathResolve homedir cli toolArgs) = true ∧
      isInvalidParams (handleClaudeCodeReply fsExists pathResolve homedir cli toolArgs) = true) ∧
    (strTrim s ≠ "" → fsExists (pathResolve s) = false →
      (∀ p, getArg toolArgs "prompt" = some (.str p) →
        handleClaudeCode fsExists pathResolve homedir cli toolArgs =
          .error ⟨.invalidParams, "Specified workFolder does not exist: " ++ pathResolve s⟩) ∧
      (∀ t p, getArg toolArgs "threadId" = some (.str t) → t ≠ "" →
        getArg toolArgs "prompt" = some (.str p) → p ≠ "" →
        handleClaudeCodeReply fsExists pathResolve homedir cli toolArgs =
          .error ⟨.invalidParams, "Specified workFolder does not exist: " ++ pathResolve s⟩) ∧
      strContains ("Specified workFolder does not exist: " ++ pathResolve s)
        (pathResolve s) = true) := by
  constructor
  · intro hblank
    constructor
    · cases hp : getArg toolArgs "prompt" with
      | none => simp [handleClaudeCode, hp, isInvalidParams]
      | some v =>
        cases v <;>
          simp [handleClaudeCode, hp, isInvalidParams, resolveWorkFolder, hwf, hblank]
    · cases ht : getArg toolArgs "threadId" with
      | none => simp [handleClaudeCodeReply, ht, isInvalidParams]
      | some v =>
        cases v with
        | str t =>
          cases hte : t.isEmpty with
          | true => simp [handleClaudeCodeReply, ht, hte, isInvalidParams]
          | false =>
            cases hp : getArg toolArgs "prompt" with
            | none => simp [handleClaudeCodeReply, ht, hte, hp, isInvalidParams]
            | some w =>
              cases w with
              | str p =>
                cases hpe : p.isEmpty with
                | true => simp [handleClaudeCodeReply, ht, hte, hp, hpe, isInvalidParams]
                | false =>
                  simp [handleClaudeCodeReply, ht, hte, hp, hpe, isInvalidParams,
                        resolveWorkFolder, hwf, hblank]
              | num n => simp [handleClaudeCodeReply, ht, hte, hp, isInvalidParams]
              | bool b => simp [handleClaudeCodeReply, ht, hte, hp, isInvalidParams]
              | null => simp [handleClaudeCodeReply, ht, hte, hp, isInvalidParams]
              | arr a => simp [handleClaudeCodeReply, ht, hte, hp, isInvalidParams]
              | obj o => simp [handleClaudeCodeReply, ht, hte, hp, isInvalidParams]
        | num n => simp [handleClaudeCodeReply, ht, isInvalidParams]
        | bool b => simp [handleClaudeCodeReply, ht, isInvalidParams]
        | null => simp [handleClaudeCodeReply, ht, isInvalidParams]
        | arr a => simp [handleClaudeCodeReply, ht, isInvalidParams]
        | obj o => simp [handleClaudeCodeReply, ht, isInvalidParams]
  · intro hnblank hne
    refine ⟨fun p hp => ?_, fun t p ht htne hp hpne => ?_, ?_⟩
    · simp [handleClaudeCode, hp, resolveWorkFolder, hwf, hnblank, hne]
    · simp [handleClaudeCodeReply, ht, hp, String.isEmpty_iff, htne, hpne,
            resolveWorkFolder, hwf, hnblank, hne]
    · exact strContains_append_self _ _

/-- Witness for C3 at concrete inputs: a blank workFolder is rejected as
invalid-params, and a non-existent one is rejected with the resolved path
in the message. -/
theorem workFolder_invalid_rejected_witness :
    isInvalidParams (handleClaudeCode (fun _ => false) (fun _ => "/abs/w") "/home/u" "claude"
        (some [("prompt", Json.str "hi"), ("workFolder", Json.str "  ")])) = true ∧
    handleClaudeCode (fun _ => false) (fun _ => "/abs/w") "/home/u" "claude"
        (some [("prompt", Json.str "hi"), ("workFolder", Json.str "w")]) =
      .error ⟨.invalidParams, "Specified workFolder does not exist: " ++ "/abs/w"⟩ ∧
    strContains ("Specified workFolder does not exist: " ++ "/abs/w") "/abs/w" = true := by
  refine ⟨?_, ?_, ?_⟩
  · exact ((workFolder_invalid_rejected (fun _ => false) (fun _ => "/abs/w") "/home/u" "claude"
      "  " (some [("prompt", Json.str "hi"), ("workFolder", Json.str "  ")]) rfl).1
      (by decide)).1
  · exact ((workFolder_invalid_rejected (fun _ => false) (fun _ => "/abs/w") "/home/u" "claude"
      "w" (some [("prompt", Json.str "hi"), ("workFolder", Json.str "w")]) rfl).2
      (by decide) rfl).1 "hi" rfl
  · exact ((workFolder_invalid_rejected (fun _ => false) (fun _ => "/abs/w") "/home/u" "claude"
      "w" (some [("prompt", Json.str "hi"), ("workFolder", Json.str "w")]) rfl).2
      (by decide) rfl).2.2

/-- C4 counterexample: for the resume operation an empty-string prompt
(with a valid threadId and no workFolder) does NOT pass validation — the
guard `if (!prompt || typeof prompt !== 'string')` treats the empty string
as falsy and rejects it as invalid-params, refuting the claim that both
operations accept an empty prompt. -/
theorem reply_rejects_empty_prompt_cex :
    handleClaudeCodeReply (fun _ => true) (fun s => s) "/home/u" "claude"
        (some [("threadId", Json.str "abc123"), ("prompt", Json.str "")]) =
      .error ⟨.invalidParams, "Missing or invalid required parameter: prompt"⟩ := by
  rfl

/-- C4 (amended): the fresh-conversation operation accepts an empty-string
prompt — its check is only that `prompt` is present and a string — while
the resume operation rejects an empty-string prompt as invalid-params,
because its truthiness guard treats the empty string as missing. -/
theorem empty_prompt_validation
    (fsExists : String → Bool) (pathResolve : String → String)
    (homedir cli cwd t : String) (toolArgs : Option (List (String × Json))) :
    (getArg toolArgs "prompt" = some (.str "") →
      resolveWorkFolder fsExists pathResolve homedir (getArg toolArgs "workFolder") = .ok cwd →
      handleClaudeCode fsExists pathResolve homedir cli toolArgs =
        .ok ⟨cli, ["--dangerously-skip-permissions", "-p", "--output-format", "json", ""],
             cwd, executionTimeoutMs⟩) ∧
    (getArg toolArgs "prompt" = some (.str "") →
      getArg toolArgs "threadId" = some (.str t) → t ≠ "" →
      handleClaudeCodeReply fsExists pathResolve homedir cli toolArgs =
        .error ⟨.invalidParams, "Missing or invalid required parameter: prompt"⟩) := by
  constructor
  · intro hp hw
    simp [handleClaudeCode, hp, hw]
  · intro hp ht htne
    simp [handleClaudeCodeReply, ht, hp, String.isEmpty_iff, htne]

/-- Witness for C4 (amended) at concrete inputs. -/
theorem empty_prompt_validation_witness :
    handleClaudeCode (fun _ => true) (fun s => s) "/home/u" "claude"
        (some [("prompt", Json.str "")]) =
      .ok ⟨"claude",
           ["--dangerously-skip-permissions", "-p", "--output-format", "json", ""],
           "/home/u", executionTimeoutMs⟩ ∧
    handleClaudeCodeReply (fun _ => true) (fun s => s) "/home/u" "claude"
        (some [("threadId", Json.str "abc123"), ("prompt", Json.str "")]) =
      .error ⟨.invalidParams, "Missing or invalid required parameter: prompt"⟩ := by
  constructor
  · exact (empty_prompt_validation (fun _ => true) (fun s => s) "/home/u" "claude"
      "/home/u" "t" (some [("prompt", Json.str "")])).1 rfl rfl
  · exact (empty_prompt_validation (fun _ => true) (fun s => s) "/home/u" "claude"
      "/home/u" "abc123"
      (some [("threadId", Json.str "abc123"), ("prompt", Json.str "")])).2
      rfl rfl (by decide)

/-- C5 counterexample: with a bare-name override configured and the
per-user local installation present, the resolver returns the local
installation path, not the bare override name — the local check is NOT
skipped, refuting the claim. -/
theorem findClaudeCli_bare_override_cex :
    findClaudeCli (some "mycli") (fun _ => false) (fun _ => true) "/home/user" =
      .ok "/home/user/.claude/local/claude" ∧
    "/home/user/.claude/local/claude" ≠ "mycli" := by
  exact ⟨rfl, by decide⟩

/-- C5 (amended): a bare-name override (truthy, not absolute, not
relative-looking) replaces the default command name, but the per-user
local installation path is still consulted and returned when it exists;
the bare override name is returned only when that local path does not
exist. -/
theorem findClaudeCli_bare_override_local_first
    (isAbsolute fsExists : String → Bool) (homedir n : String)
    (hn : n ≠ "") (habs : isAbsolute n = false)
    (hrel : (jsStartsWith n "./" || jsStartsWith n "../" || strContains n "/") = false) :
    findClaudeCli (some n) isAbsolute fsExists homedir =
      (if fsExists (homedir ++ "/.claude/local/claude") then
        .ok (homedir ++ "/.claude/local/claude")
      else .ok n) := by
  have hne : n.isEmpty = false := by
    cases he : n.isEmpty with
    | false => rfl
    | true => exact absurd ((String.isEmpty_iff n).mp he) hn
  simp [findClaudeCli, habs, hrel, hne]

/-- Witness for C5 (amended): bare override, local path absent, bare name
returned for PATH lookup. -/
theorem findClaudeCli_bare_override_local_first_witness :
    findClaudeCli (some "mycli") (fun _ => false) (fun _ => false) "/home/user" =
      (if (fun _ => false : String → Bool) ("/home/user" ++ "/.claude/local/claude") then
        .ok ("/home/user" ++ "/.claude/local/claude")
      else Except.ok "mycli") := by
  exact findClaudeCli_bare_override_local_first (fun _ => false) (fun _ => false)
    "/home/user" "mycli" (by decide) rfl (by decide)

/-- C6 evidence: when the 30-minute spawn timeout elapses, Node kills the
child with SIGTERM, so `spawnAsync` observes a `close` event with a null
exit code and rejects with a plain Error whose message is the generic
"Command failed with exit code null" text. That plain Error has no
`signal` or `code` property and its message does not contain 'ETIMEDOUT',
so the handler's timeout branch (src/server.ts:453-455) cannot fire: the
surfaced internal error is the generic execution-failure message, and it
does not mention the timeout duration ("timed out" does not occur in it),
contradicting the claim. -/
theorem timeout_message_not_distinguished :
    spawnAsync [SpawnEvent.closeEvent none] =
      some (Except.error "Command failed with exit code null\nStderr: \nStdout: ") ∧
    handleExecutionError
        (spawnRejectionError "Command failed with exit code null\nStderr: \nStdout: ") =
      ⟨ErrorCode.internalError,
       "Claude CLI execution failed: Command failed with exit code null\nStderr: \nStdout: "⟩ ∧
    strContains
      "Claude CLI execution failed: Command failed with exit code null\nStderr: \nStdout: "
      "timed out" = false := by
  refine ⟨rfl, rfl, rfl⟩

/-- C7: the process runner resolves with the accumulated stdout and stderr
exactly when the exit code is 0; any other close (a non-zero code, or a
null code after a signal kill) rejects with the failure message carrying
the exit code and the trimmed accumulated stdout and stderr. `pre` is the
stream of events before the close; the hypothesis says no earlier
`error`/`close` event settled the promise. -/
theorem spawnAsync_close_spec (pre : List SpawnEvent) (code : Option Int)
    (h : (runSpawnEvents pre).settled = false) :
    spawnAsync (pre ++ [SpawnEvent.closeEvent code]) =
      some (if code = some 0 then
          Except.ok ⟨(runSpawnEvents pre).stdout, (runSpawnEvents pre).stderr⟩
        else
          Except.error ("Command failed with exit code " ++ jsCodeStr code ++
            "\nStderr: " ++ strTrim (runSpawnEvents pre).stderr ++
            "\nStdout: " ++ strTrim (runSpawnEvents pre).stdout)) := by
  by_cases hc : code = some 0 <;>
    simp [spawnAsync, runSpawnEvents, List.foldl_append, spawnStep, h, hc] <;>
    simp [runSpawnEvents] at h <;>
    simp [h]

/-- Witness for C7: two data chunks, then exit code 2. -/
theorem spawnAsync_close_spec_witness :
    spawnAsync ([SpawnEvent.stdoutData "out", SpawnEvent.stderrData " boom "] ++
        [SpawnEvent.closeEvent (some 2)]) =
      some (if (some 2 : Option Int) = some 0 then
          Except.ok ⟨(runSpawnEvents [SpawnEvent.stdoutData "out",
                        SpawnEvent.stderrData " boom "]).stdout,
                     (runSpawnEvents [SpawnEvent.stdoutData "out",
                        SpawnEvent.stderrData " boom "]).stderr⟩
        else
          Except.error ("Command failed with exit code " ++ jsCodeStr (some 2) ++
            "\nStderr: " ++ strTrim (runSpawnEvents [SpawnEvent.stdoutData "out",
                SpawnEvent.stderrData " boom "]).stderr ++
            "\nStdout: " ++ strTrim (runSpawnEvents [SpawnEvent.stdoutData "out",
                SpawnEvent.stderrData " boom "]).stdout)) :=
  spawnAsync_close_spec [SpawnEvent.stdoutData "out", SpawnEvent.stderrData " boom "]
    (some 2) rfl

/-- Settled states are frozen: one step neither unsettles the state nor
changes the settlement. -/
theorem spawnStep_preserves_settled (st : SpawnState) (e : SpawnEvent)
    (h : st.settled = true) :
    (spawnStep st e).settled = true ∧ (spawnStep st e).settlement = st.settlement := by
  cases e <;> simp [spawnStep, h]

/-- C8: each `spawnAsync` invocation settles exactly once — once an
`error` or `close` event has settled the promise (the `settled` flag is
set), every further event leaves the settlement unchanged, so the promise
is never resolved or rejected a second time. -/
theorem spawnAsync_settles_once (evs tail : List SpawnEvent)
    (h : (runSpawnEvents evs).settled = true) :
    spawnAsync (evs ++ tail) = spawnAsync evs := by
  have frozen : ∀ (rest : List SpawnEvent) (st : SpawnState), st.settled = true →
      (List.foldl spawnStep st rest).settlement = st.settlement := by
    intro rest
    induction rest with
    | nil => intro st _; rfl
    | cons e r ih =>
      intro st hst
      have hp := spawnStep_preserves_settled st e hst
      rw [List.foldl_cons, ih (spawnStep st e) hp.1]
      exact hp.2
  unfold spawnAsync runSpawnEvents
  unfold runSpawnEvents at h
  rw [List.foldl_append]
  exact frozen tail _ h

/-- Witness for C8: a resolution at exit code 0, then a late close and a
late error event, all ignored. -/
theorem spawnAsync_settles_once_witness :
    spawnAsync ([SpawnEvent.closeEvent (some 0)] ++
        [SpawnEvent.closeEvent (some 1), SpawnEvent.errorEvent "boom" none none]) =
      spawnAsync [SpawnEvent.closeEvent (some 0)] :=
  spawnAsync_settles_once [SpawnEvent.closeEvent (some 0)]
    [SpawnEvent.closeEvent (some 1), SpawnEvent.errorEvent "boom" none none] rfl

/-- C9: a present but non-string `workFolder` is silently ignored — the
working-directory resolution returns the home directory without an error,
and each handler behaves exactly as if `workFolder` had been omitted
(stated for two argument objects agreeing on everything the handlers read
except that one carries the non-string `workFolder` and the other none). -/
theorem workFolder_nonstring_ignored
    (fsExists : String → Bool) (pathResolve : String → String)
    (homedir cli : String) (v : Json)
    (toolArgs toolArgs' : Option (List (String × Json)))
    (hv : ∀ s, v ≠ Json.str s)
    (h1 : getArg toolArgs "workFolder" = some v)
    (h2 : getArg toolArgs' "workFolder" = none)
    (hp : getArg toolArgs "prompt" = getArg toolArgs' "prompt")
    (ht : getArg toolArgs "threadId" = getArg toolArgs' "threadId") :
    resolveWorkFolder fsExists pathResolve homedir (some v) = .ok homedir ∧
    handleClaudeCode fsExists pathResolve homedir cli toolArgs =
      handleClaudeCode fsExists pathResolve homedir cli toolArgs' ∧
    handleClaudeCodeReply fsExists pathResolve homedir cli toolArgs =
      handleClaudeCodeReply fsExists pathResolve homedir cli toolArgs' := by
  have hr : resolveWorkFolder fsExists pathResolve homedir (some v) = .ok homedir := by
    cases v with
    | str s => exact absurd rfl (hv s)
    | num n => rfl
    | bool b => rfl
    | null => rfl
    | arr a => rfl
    | obj o => rfl
  refine ⟨hr, ?_, ?_⟩
  · unfold handleClaudeCode
    rw [hp, h1, h2, hr]
    cases getArg toolArgs' "prompt" with
    | none => rfl
    | some w => cases w <;> rfl
  · unfold handleClaudeCodeReply
    rw [ht, hp, h1, h2, hr]
    cases getArg toolArgs' "threadId" with
    | none => rfl
    | some w =>
      cases w with
      | str t =>
        cases t.isEmpty with
        | true => rfl
        | false =>
          cases getArg toolArgs' "prompt" with
          | none => rfl
          | some u => cases u <;> rfl
      | num n => rfl
      | bool b => rfl
      | null => rfl
      | arr a => rfl
      | obj o => rfl

/-- Witness for C9: a numeric `workFolder` behaves like an omitted one. -/
theorem workFolder_nonstring_ignored_witness :
    resolveWorkFolder (fun _ => false) (fun s => s) "/home/u" (some (Json.num 123)) =
      .ok "/home/u" ∧
    handleClaudeCode (fun _ => false) (fun s => s) "/home/u" "claude"
        (some [("prompt", Json.str "hi"), ("workFolder", Json.num 123)]) =
      handleClaudeCode (fun _ => false) (fun s => s) "/home/u" "claude"
        (some [("prompt", Json.str "hi")]) ∧
    handleClaudeCodeReply (fun _ => false) (fun s => s) "/home/u" "claude"
        (some [("prompt", Json.str "hi"), ("workFolder", Json.num 123)]) =
      handleClaudeCodeReply (fun _ => false) (fun s => s) "/home/u" "claude"
        (some [("prompt", Json.str "hi")]) :=
  workFolder_nonstring_ignored (fun _ => false) (fun s => s) "/home/u" "claude"
    (Json.num 123)
    (some [("prompt", Json.str "hi"), ("workFolder", Json.num 123)])
    (some [("prompt", Json.str "hi")])
    (fun _ h => Json.noConfusion h) rfl rfl rfl rfl

/-- Parse outcome when the structured output has a string `result`. -/
theorem parseClaudeOutput_result_str (jsonParse : String → Option Json) (stdout : String)
    (j : Json) (r : String) (hj : jsonParse stdout = some j)
    (hr : j.getField "result" = some (.str r)) :
    parseClaudeOutput jsonParse stdout =
      ⟨r,
       match j.getField "session_id" with
       | some (.str s) => some s
       | _ => none,
       match j.getField "is_error" with
       | some (.bool b) => some b
       | _ => none⟩ := by
  simp only [parseClaudeOutput, hj, hr]

/-- Parse outcome when the structured output has no string `result`. -/
theorem parseClaudeOutput_fallback (jsonParse : String → Option Json) (stdout : String)
    (j : Json) (hj : jsonParse stdout = some j)
    (hnr : ∀ r, j.getField "result" ≠ some (.str r)) :
    parseClaudeOutput jsonParse stdout = ⟨stdout, none, none⟩ := by
  simp only [parseClaudeOutput, hj]

/-- C10: for a successful invocation the response carries the
`structuredContent` extension exactly when the parsed session identifier
is a non-empty string; when present, its `threadId` is that identifier and
its `content` is the result text. In particular, when the child’s
structured output declares `session_id` as the empty string, as a
non-string value, or omits it, no extension is present. -/
theorem structuredContent_iff_nonempty_session
    (jsonParse : String → Option Json) (stdout : String) :
    ((successResponse jsonParse stdout).structuredContent = none ↔
      ((parseClaudeOutput jsonParse stdout).sessionId = none ∨
       (parseClaudeOutput jsonParse stdout).sessionId = some "")) ∧
    (∀ s, (parseClaudeOutput jsonParse stdout).sessionId = some s → s ≠ "" →
      (successResponse jsonParse stdout).structuredContent =
        some ⟨s, (parseClaudeOutput jsonParse stdout).resultText⟩) ∧
    (∀ j, jsonParse stdout = some j →
      (j.getField "session_id" = some (.str "") ∨
       (∀ s, j.getField "session_id" ≠ some (.str s))) →
      (successResponse jsonParse stdout).structuredContent = none) := by
  refine ⟨?_, ?_, ?_⟩
  · unfold successResponse buildResponse
    cases hs : (parseClaudeOutput jsonParse stdout).sessionId with
    | none => simp
    | some s =>
      cases he : s.isEmpty with
      | true => simp [he, (String.isEmpty_iff s).mp he, String.isEmpty_iff]
      | false =>
        have hne : s ≠ "" := by
          intro h
          rw [h] at he
          exact absurd he (by decide)
        simp [he, hne]
  · intro s hs hne
    unfold successResponse buildResponse
    rw [hs]
    have he : s.isEmpty = false := by
      cases he : s.isEmpty with
      | false => rfl
      | true => exact absurd ((String.isEmpty_iff s).mp he) hne
    simp [he]
  · intro j hj hsess
    cases hres : j.getField "result" with
    | some v =>
      cases v with
      | str r =>
        have hparse := parseClaudeOutput_result_str jsonParse stdout j r hj hres
        unfold successResponse buildResponse
        rw [hparse]
        rcases hsess with h | h
        · rw [h]
          rfl
        · cases hsid : j.getField "session_id" with
          | none => rfl
          | some w =>
            cases w with
            | str t => exact absurd hsid (h t)
            | num n => rfl
            | bool b => rfl
            | null => rfl
            | arr a => rfl
            | obj o => rfl
      | num n =>
        have hfall := parseClaudeOutput_fallback jsonParse stdout j hj (by simp [hres])
        unfold successResponse buildResponse
        rw [hfall]
      | bool b =>
        have hfall := parseClaudeOutput_fallback jsonParse stdout j hj (by simp [hres])
        unfold successResponse buildResponse
        rw [hfall]
      | null =>
        have hfall := parseClaudeOutput_fallback jsonParse stdout j hj (by simp [hres])
        unfold successResponse buildResponse
        rw [hfall]
      | arr a =>
        have hfall := parseClaudeOutput_fallback jsonParse stdout j hj (by simp [hres])
        unfold successResponse buildResponse
        rw [hfall]
      | obj o =>
        have hfall := parseClaudeOutput_fallback jsonParse stdout j hj (by simp [hres])
        unfold successResponse buildResponse
        rw [hfall]
    | none =>
      have hfall := parseClaudeOutput_fallback jsonParse stdout j hj (by simp [hres])
      unfold successResponse buildResponse
      rw [hfall]

/-- Witness for C10: a populated session identifier yields the extension;
an empty-string `session_id` yields none. -/
theorem structuredContent_iff_nonempty_session_witness :
    (successResponse
        (fun _ => some (.obj [("result", Json.str "ok"), ("session_id", Json.str "abc123")]))
        "raw").structuredContent = some ⟨"abc123", "ok"⟩ ∧
    (successResponse
        (fun _ => some (.obj [("result", Json.str "ok"), ("session_id", Json.str "")]))
        "raw").structuredContent = none := by
  constructor
  · exact (structuredContent_iff_nonempty_session
      (fun _ => some (.obj [("result", Json.str "ok"), ("session_id", Json.str "abc123")]))
      "raw").2.1 "abc123" rfl (by decide)
  · exact (structuredContent_iff_nonempty_session
      (fun _ => some (.obj [("result", Json.str "ok"), ("session_id", Json.str "")]))
      "raw").2.2 _ rfl (Or.inl rfl)

end ClaudeMCP
